import Mathlib

/-!
Verification of the `VSCodeOpenFileAction` record from
`openhands/events/action/vscode.py` (OpenHands).

The Python source is a single dataclass:

  @dataclass
  class VSCodeOpenFileAction(Action):
      file_path: str
      thought: str = ''
      action: str = ActionType.VSCODE_OPEN_FILE
      runnable: ClassVar[bool] = True
      security_risk: ActionSecurityRisk | None = None

      @property
      def message(self) -> str:
          return f'Opening file in VSCode: {self.file_path}'

      def __str__(self) -> str:
          ret = '**VSCodeOpenFileAction**\n'
          if self.thought:
              ret += f'THOUGHT: {self.thought}\n'
          ret += f'FILE_PATH: {self.file_path}'
          return ret

We embed the record as a Lean structure (the `runnable` ClassVar is a
class-level constant, so it is deliberately NOT a structure field), the
two accessors as pure functions on the structure, and the
dataclass-generated constructor and equality as explicit definitions.
-/

namespace OpenHands

/-- Modelled from the spec: the fixed "open file" constant
`ActionType.VSCODE_OPEN_FILE`. The `ActionType` enumeration is not part of
the provided source file (only its import is); the spec says only that this
is a fixed tag value identifying the "open file in editor" variant, so we
model it as an arbitrary fixed string constant. No claim depends on its
concrete value. -/
def ActionType.VSCODE_OPEN_FILE : String := "vscode_open_file"

/-- Modelled from the spec: the external enumerated risk scale
(`ActionSecurityRisk`), "an externally defined enumerated severity level
attached to an action for policy evaluation". The enumeration itself is not
part of the provided source file; the record only carries the value, never
interprets it, so the exact constructors are immaterial to every claim. -/
inductive ActionSecurityRisk
  | UNKNOWN
  | LOW
  | MEDIUM
  | HIGH
deriving DecidableEq, Repr

/-- The `VSCodeOpenFileAction` dataclass. Instance fields in source order,
with the source's default values. `runnable` is a `ClassVar` in the source,
hence a class-level constant here, not a field. -/
structure VSCodeOpenFileAction where
  file_path : String
  thought : String := ""
  action : String := ActionType.VSCODE_OPEN_FILE
  security_risk : Option ActionSecurityRisk := none
deriving DecidableEq, Repr

/-- The class-level `runnable: ClassVar[bool] = True`. -/
def VSCodeOpenFileAction.runnable : Bool := true

/-- Python attribute lookup of `runnable` on an instance: there is no
per-instance slot, so lookup falls through to the class attribute. -/
def VSCodeOpenFileAction.runnableAttr (_ : VSCodeOpenFileAction) : Bool :=
  VSCodeOpenFileAction.runnable

/-- The `message` property:
`return f'Opening file in VSCode: {self.file_path}'`. -/
def VSCodeOpenFileAction.message (a : VSCodeOpenFileAction) : String :=
  "Opening file in VSCode: " ++ a.file_path

/-- The `__str__` method. Python's `if self.thought:` is string truthiness:
the THOUGHT line is appended exactly when `thought` is non-empty. -/
def VSCodeOpenFileAction.str (a : VSCodeOpenFileAction) : String :=
  let ret := "**VSCodeOpenFileAction**\n"
  let ret := if a.thought = "" then ret else ret ++ ("THOUGHT: " ++ a.thought ++ "\n")
  ret ++ ("FILE_PATH: " ++ a.file_path)

/-- The `message` property as a state transformer: the body reads
`self.file_path` and returns; it performs no assignment, so the record
after the call is the record before it. -/
def VSCodeOpenFileAction.messageRun (a : VSCodeOpenFileAction) :
    String × VSCodeOpenFileAction :=
  ("Opening file in VSCode: " ++ a.file_path, a)

/-- The `__str__` method as a state transformer: the body mutates only the
local `ret`, never `self`, so the record after the call is the record
before it. -/
def VSCodeOpenFileAction.strRun (a : VSCodeOpenFileAction) :
    String × VSCodeOpenFileAction :=
  let ret := "**VSCodeOpenFileAction**\n"
  let ret := if a.thought = "" then ret else ret ++ ("THOUGHT: " ++ a.thought ++ "\n")
  (ret ++ ("FILE_PATH: " ++ a.file_path), a)

/-- The dataclass-generated `__eq__`: compares the tuple of instance fields
in declaration order (`file_path`, `thought`, `action`, `security_risk`);
the `ClassVar` `runnable` is excluded by the dataclass machinery. -/
def VSCodeOpenFileAction.eqPy (a b : VSCodeOpenFileAction) : Bool :=
  a.file_path == b.file_path && a.thought == b.thought &&
    a.action == b.action && a.security_risk == b.security_risk

/-- The construction-time failure of the dataclass-generated `__init__`
when the required `file_path` argument is missing (Python raises
`TypeError: missing 1 required positional argument`); the spec names this
error kind `MissingRequiredField`. -/
inductive ConstructError
  | MissingRequiredField
deriving DecidableEq, Repr

/-- The dataclass-generated `__init__` as a fallible function over the
optionally-supplied arguments: `file_path` has no default, so omitting it
fails; each other field falls back to its declared default. -/
def VSCodeOpenFileAction.construct (file_path : Option String)
    (thought : Option String) (action : Option String)
    (security_risk : Option (Option ActionSecurityRisk)) :
    Except ConstructError VSCodeOpenFileAction :=
  match file_path with
  | none => .error .MissingRequiredField
  | some p =>
      .ok { file_path := p
            thought := thought.getD ""
            action := action.getD ActionType.VSCODE_OPEN_FILE
            security_risk := security_risk.getD none }

/-- C1: for every constructed record, the `message` property returns
exactly `"Opening file in VSCode: "` followed by the record's `file_path`,
and running the property leaves the record unchanged (no side effects). -/
theorem message_exact (a : VSCodeOpenFileAction) :
    a.message = "Opening file in VSCode: " ++ a.file_path ∧
      a.messageRun = (a.message, a) :=
  ⟨rfl, rfl⟩

/-- C2: for every non-empty string `p`, constructing with `file_path = p`
and the `thought` field left at its empty default makes `__str__` return
exactly `"**VSCodeOpenFileAction**\nFILE_PATH: " ++ p`, with no trailing
newline after the final line. -/
theorem str_no_thought (p : String) (hp : p ≠ "") :
    VSCodeOpenFileAction.str { file_path := p } =
      "**VSCodeOpenFileAction**\nFILE_PATH: " ++ p := by
  simp only [VSCodeOpenFileAction.str, if_pos rfl]
  rfl

/-- Witness for C2 at the concrete non-empty path `"main.py"`. -/
theorem str_no_thought_witness :
    ("main.py" : String) ≠ "" ∧
      VSCodeOpenFileAction.str { file_path := "main.py" } =
        "**VSCodeOpenFileAction**\nFILE_PATH: main.py" :=
  ⟨by decide, str_no_thought "main.py" (by decide)⟩

/-- C3: for every `p` and `t`, `__str__` of a record with `file_path = p`
and `thought = t` equals
`"**VSCodeOpenFileAction**\nTHOUGHT: " ++ t ++ "\nFILE_PATH: " ++ p` when
`t` is non-empty, and omits the THOUGHT line exactly when `t` is empty:
the THOUGHT line is present if and only if `thought` is non-empty. -/
theorem str_thought_iff (p t : String) :
    VSCodeOpenFileAction.str { file_path := p, thought := t } =
      if t = "" then "**VSCodeOpenFileAction**\nFILE_PATH: " ++ p
      else "**VSCodeOpenFileAction**\nTHOUGHT: " ++ t ++ ("\nFILE_PATH: " ++ p) := by
  by_cases h : t = ""
  · simp only [VSCodeOpenFileAction.str, h, if_pos rfl]
    rfl
  · simp only [VSCodeOpenFileAction.str, if_neg h, String.append_assoc]
    rfl

/-- C4: the `action` field of any record constructed without overriding its
default equals the fixed constant `ActionType.VSCODE_OPEN_FILE`, regardless
of the values of the other fields. -/
theorem action_is_constant (p t : String) (s : Option ActionSecurityRisk) :
    (VSCodeOpenFileAction.mk p t ActionType.VSCODE_OPEN_FILE s).action =
        ActionType.VSCODE_OPEN_FILE ∧
      ({ file_path := p, thought := t, security_risk := s } :
          VSCodeOpenFileAction).action = ActionType.VSCODE_OPEN_FILE :=
  ⟨rfl, rfl⟩

/-- C5: `runnable` is the class-level constant `true`: it is not an
instance field, instance attribute lookup yields `true` for every record,
and the value is identical across all instances. -/
theorem runnable_class_constant :
    VSCodeOpenFileAction.runnable = true ∧
      (∀ a : VSCodeOpenFileAction, a.runnableAttr = true) ∧
      ∀ a b : VSCodeOpenFileAction, a.runnableAttr = b.runnableAttr :=
  ⟨rfl, fun _ => rfl, fun _ _ => rfl⟩

/-- C6: construction with `file_path` missing fails with
`MissingRequiredField` whatever else is supplied; construction with only
`file_path` supplied succeeds with `thought` defaulted to the empty string
and `security_risk` defaulted to `none`. -/
theorem construct_requires_file_path (p : String) (t act : Option String)
    (s : Option (Option ActionSecurityRisk)) :
    VSCodeOpenFileAction.construct none t act s =
        .error .MissingRequiredField ∧
      VSCodeOpenFileAction.construct (some p) none none none =
        .ok { file_path := p, thought := "",
              action := ActionType.VSCODE_OPEN_FILE, security_risk := none } :=
  ⟨rfl, rfl⟩

/-- C7: for every record, `message` and `__str__` are total
string-returning functions, and running either method leaves every field of
the record unchanged. -/
theorem accessors_total_pure (a : VSCodeOpenFileAction) :
    a.messageRun = (a.message, a) ∧ a.strRun = (a.str, a) :=
  ⟨rfl, rfl⟩

/-- C8: the record has value semantics: the dataclass-generated equality
holds exactly when the four instance fields (`file_path`, `thought`,
`action`, `security_risk`) are pairwise equal, which is exactly record
equality. -/
theorem eqPy_value_semantics (a b : VSCodeOpenFileAction) :
    (VSCodeOpenFileAction.eqPy a b = true ↔
        (a.file_path = b.file_path ∧ a.thought = b.thought ∧
          a.action = b.action ∧ a.security_risk = b.security_risk)) ∧
      (VSCodeOpenFileAction.eqPy a b = true ↔ a = b) := by
  cases a; cases b
  simp [VSCodeOpenFileAction.eqPy, Bool.and_eq_true, beq_iff_eq,
    VSCodeOpenFileAction.mk.injEq, and_assoc]

/-- C9: the outputs of `message` and `__str__` depend only on `file_path`
and `thought`: two records agreeing on those two fields produce identical
strings from both accessors, whatever their `action` and `security_risk`. -/
theorem render_noninterference (a b : VSCodeOpenFileAction)
    (hf : a.file_path = b.file_path) (ht : a.thought = b.thought) :
    a.message = b.message ∧ a.str = b.str := by
  constructor
  · simp only [VSCodeOpenFileAction.message, hf]
  · simp only [VSCodeOpenFileAction.str, hf, ht]

/-- Witness for C9: two concrete records sharing `file_path` and `thought`
but differing in both `action` and `security_risk` render identically. -/
theorem render_noninterference_witness :
    (VSCodeOpenFileAction.mk "f.py" "look" "vscode_open_file"
          (some ActionSecurityRisk.HIGH)).message =
        (VSCodeOpenFileAction.mk "f.py" "look" "other_action" none).message ∧
      (VSCodeOpenFileAction.mk "f.py" "look" "vscode_open_file"
          (some ActionSecurityRisk.HIGH)).str =
        (VSCodeOpenFileAction.mk "f.py" "look" "other_action" none).str :=
  render_noninterference
    (VSCodeOpenFileAction.mk "f.py" "look" "vscode_open_file"
      (some ActionSecurityRisk.HIGH))
    (VSCodeOpenFileAction.mk "f.py" "look" "other_action" none) rfl rfl

/-- C10: the formatting formulas also hold at the empty file path: a record
with `file_path = ""` and no thought has
`message = "Opening file in VSCode: "` and
`__str__ = "**VSCodeOpenFileAction**\nFILE_PATH: "`. -/
theorem render_empty_path :
    ({ file_path := "" } : VSCodeOpenFileAction).message =
        "Opening file in VSCode: " ∧
      ({ file_path := "" } : VSCodeOpenFileAction).str =
        "**VSCodeOpenFileAction**\nFILE_PATH: " :=
  ⟨rfl, rfl⟩

end OpenHands
